import Mathlib

/-!
Shallow embedding of the Eaglesong CPU mining worker
(`src/miner/src/worker/eaglesong.rs`) and proofs about its control loop.

Modelling conventions:
* `Byte32` (32-byte digest) is a list of byte values; `U256` targets and
  `u128` nonces are natural numbers (the source never overflows a `u64`
  counter in the properties treated here, so `Nat` is used with explicit
  byte masking where the source performs byte-level conversions).
* The three native compute entry points (`c_solve`, `c_solve_avx2`,
  `c_solve_avx512`) are external C functions; they are modelled as
  function parameters (oracles) of type `ComputeFn`: given the pow-hash
  bytes, the big-endian target bytes, and the contents of the 16-byte
  nonce output buffer before the call, an oracle returns the buffer
  contents after the call together with the `u32` work-unit count.
* The crossbeam channels are modelled by their per-tick observable
  behaviour: the control receiver's `try_recv` result is an input of the
  tick (`Except TryRecvError WorkerMessage`), and sends on the seal
  channel are recorded in the tick's outcome; `send_fails` says whether
  the single send attempt of the tick (if any) returns an error.
* Wall-clock time is an input: `elapsed_nanos` is the duration measured
  by `start.elapsed()` inside one call of `run`.
* A `panic!` / `unreachable!` is modelled by returning `none`.
-/

/-- Byte values of a `Byte32` digest (`pow_hash.as_slice()`, 32 bytes). -/
abbrev Byte32 := List Nat

/-- A compute-primitive entry point: pow-hash bytes, big-endian target
bytes and the initial contents of the 16-byte nonce output buffer map to
the final buffer contents and the returned work-unit count. -/
abbrev ComputeFn := List Nat → List Nat → List Nat → List Nat × Nat

/-- `WorkerMessage` from `src/miner/src/worker`: control messages consumed
by `poll_worker_message`. -/
inductive WorkerMessage where
  | NewWork (pow_info : Byte32 × Nat)
  | Stop
  | Start
deriving DecidableEq, Repr

/-- Result of a non-blocking `try_recv` that found no message: the channel
was empty, or it was disconnected. -/
inductive TryRecvError where
  | empty
  | disconnected
deriving DecidableEq, Repr

/-- The worker's owned state (`struct EaglesongCpu`), channels omitted:
they are modelled as inputs/outputs of each tick. -/
structure EaglesongCpu where
  start : Bool
  pow_info : Option (Byte32 × Nat)
  seal_candidates_found : Nat
  arch : Nat
deriving DecidableEq, Repr

/-- `const STATE_UPDATE_DURATION_MILLIS: u128 = 300;` -/
def STATE_UPDATE_DURATION_MILLIS : Nat := 300

/-- `EaglesongCpu::new`: channels are not part of the modelled state, so
only `arch` remains; the constructor stores it without validation. -/
def EaglesongCpu.new (arch : Nat) : EaglesongCpu :=
  { start := true
    pow_info := none
    seal_candidates_found := 0
    arch := arch }

/-- `U256::to_be_bytes`: the 32 bytes of the target, most significant
first. -/
def u256_to_be_bytes (t : Nat) : List Nat :=
  (List.range 32).map fun i => t / 2 ^ (8 * (31 - i)) % 256

/-- `u128::from_le_bytes`: decode a 16-byte buffer, least significant byte
first. -/
def u128_from_le_bytes (bs : List Nat) : Nat :=
  bs.foldr (fun b acc => b + 256 * acc) 0

/-- Value of a big-endian byte string (most significant byte first); used
to state what "big-endian serialization" means for `u256_to_be_bytes`. -/
def beBytesToNat (bs : List Nat) : Nat :=
  bs.foldl (fun acc b => acc * 256 + b) 0

/-- Little-endian byte serialization of a `u128`; used to state what
"little-endian decoding" means for `u128_from_le_bytes`. -/
def u128_to_le_bytes (n : Nat) : List Nat :=
  (List.range 16).map fun i => n / 2 ^ (8 * i) % 256

/-- `EaglesongCpu::poll_worker_message`: apply at most one pending control
message; `try_recv` errors (empty or disconnected) leave the state
untouched. -/
def poll_worker_message (s : EaglesongCpu)
    (recv : Except TryRecvError WorkerMessage) : EaglesongCpu :=
  match recv with
  | .ok (.NewWork pow_info) => { s with pow_info := some pow_info }
  | .ok .Stop => { s with start := false }
  | .ok .Start => { s with start := true }
  | .error _ => s

/-- Record of the single native compute invocation made by `solve`: which
entry point (by `arch` index) was called, and with which arguments. -/
structure ComputeCall where
  arch : Nat
  input : List Nat
  target : List Nat
  nonce_buffer : List Nat
deriving DecidableEq, Repr

/-- Observable outcome of `EaglesongCpu::solve`. -/
structure SolveOutcome where
  state : EaglesongCpu
  sent : List (Byte32 × Nat)
  ns : Nat
  call : ComputeCall
  send_error_logged : Bool
deriving DecidableEq, Repr

/-- `EaglesongCpu::solve`: zero the 16-byte nonce buffer, dispatch on
`arch` to one of the three native entry points (any other `arch` hits
`unreachable!`, modelled as `none`), decode the buffer as a little-endian
`u128`; on a non-zero nonce, attempt one send of the seal (a failed send
is only logged) and increment `seal_candidates_found`; return the
work-unit count. -/
def solve (c_solve c_solve_avx2 c_solve_avx512 : ComputeFn)
    (send_fails : Bool) (s : EaglesongCpu) (pow_hash : Byte32)
    (target : Nat) : Option SolveOutcome :=
  let nonce0 : List Nat := List.replicate 16 0
  let tbytes := u256_to_be_bytes target
  let r : Option (List Nat × Nat) :=
    match s.arch with
    | 0 => some (c_solve pow_hash tbytes nonce0)
    | 1 => some (c_solve_avx2 pow_hash tbytes nonce0)
    | 2 => some (c_solve_avx512 pow_hash tbytes nonce0)
    | _ => none
  match r with
  | none => none
  | some (buf, ns) =>
    let nonce := u128_from_le_bytes buf
    if nonce ≠ 0 then
      some { state :=
               { s with seal_candidates_found := s.seal_candidates_found + 1 }
             sent := [(pow_hash, nonce)]
             ns := ns
             call := ⟨s.arch, pow_hash, tbytes, nonce0⟩
             send_error_logged := send_fails }
    else
      some { state := s
             sent := []
             ns := ns
             call := ⟨s.arch, pow_hash, tbytes, nonce0⟩
             send_error_logged := false }

/-- Contents of the status report written to the progress bar: the value
of the local `state_update_counter`, the elapsed duration in nanoseconds
(the reported rate is `counter / (elapsed_nanos / 1e9)` as an `f64`), and
the running `seal_candidates_found` total. -/
structure Report where
  counter : Nat
  elapsed_nanos : Nat
  seals_found : Nat
deriving DecidableEq, Repr

/-- Observable outcome of one call of `EaglesongCpu::run` (one tick).
`final_counter` is the value of the run-local `state_update_counter` when
the call returns, and `window_restarted` records whether the run-local
`start = Instant::now()` reset statement was executed before returning. -/
structure TickOutcome where
  state : EaglesongCpu
  sent : List (Byte32 × Nat)
  report : Option Report
  slept_millis : Option Nat
  call : Option ComputeCall
  final_counter : Nat
  window_restarted : Bool
  send_error_logged : Bool
deriving DecidableEq, Repr

/-- `EaglesongCpu::run` (one tick): `state_update_counter` and `start` are
locals of the call; poll one message; when running with work, solve once,
add the work units to the local counter, and report when the elapsed time
of this very call exceeds 300 ms; when stopped, zero the local counter,
restart the local window and sleep 100 ms. `elapsed_nanos` is the
duration observed by `start.elapsed()`; `Duration::as_millis` truncates
to milliseconds. -/
def run (c_solve c_solve_avx2 c_solve_avx512 : ComputeFn)
    (send_fails : Bool) (recv : Except TryRecvError WorkerMessage)
    (elapsed_nanos : Nat) (s : EaglesongCpu) : Option TickOutcome :=
  let state_update_counter : Nat := 0
  let s := poll_worker_message s recv
  if s.start then
    match s.pow_info with
    | some (pow_hash, target) =>
      match solve c_solve c_solve_avx2 c_solve_avx512 send_fails s
          pow_hash target with
      | none => none
      | some out =>
        let state_update_counter := state_update_counter + out.ns
        if elapsed_nanos / 1000000 > STATE_UPDATE_DURATION_MILLIS then
          some { state := out.state
                 sent := out.sent
                 report := some ⟨state_update_counter, elapsed_nanos,
                   out.state.seal_candidates_found⟩
                 slept_millis := none
                 call := some out.call
                 final_counter := 0
                 window_restarted := true
                 send_error_logged := out.send_error_logged }
        else
          some { state := out.state
                 sent := out.sent
                 report := none
                 slept_millis := none
                 call := some out.call
                 final_counter := state_update_counter
                 window_restarted := false
                 send_error_logged := out.send_error_logged }
    | none =>
      some { state := s
             sent := []
             report := none
             slept_millis := none
             call := none
             final_counter := state_update_counter
             window_restarted := false
             send_error_logged := false }
  else
    some { state := s
           sent := []
           report := none
           slept_millis := some 100
           call := none
           final_counter := 0
           window_restarted := true
           send_error_logged := false }

/-- Modelled from the spec: the owning thread's loop that invokes `run`
once per tick ("one call = one control-loop tick, intended to be invoked
in a tight loop by the owning thread"); the spawning code (`Worker`
trait's caller in `src/miner/src/worker/mod.rs`) is not under `src/`.
Each step supplies that tick's `try_recv` result and observed elapsed
duration; only the `EaglesongCpu` state flows from one tick to the next. -/
def runTicks (c_solve c_solve_avx2 c_solve_avx512 : ComputeFn)
    (send_fails : Bool)
    (steps : List ((Except TryRecvError WorkerMessage) × Nat))
    (s : EaglesongCpu) : Option (List TickOutcome × EaglesongCpu) :=
  match steps with
  | [] => some ([], s)
  | (recv, e) :: rest =>
    match run c_solve c_solve_avx2 c_solve_avx512 send_fails recv e s with
    | none => none
    | some out =>
      match runTicks c_solve c_solve_avx2 c_solve_avx512 send_fails rest
          out.state with
      | none => none
      | some (outs, s2) => some (out :: outs, s2)

/-- A compute oracle that ignores its arguments and always reports the
given buffer contents and work-unit count; used for concrete scenarios. -/
def constFn (buf : List Nat) (ns : Nat) : ComputeFn :=
  fun _ _ _ => (buf, ns)

/-! ## Helper lemmas -/

theorem beDigits_foldl (n : Nat) : ∀ t : Nat,
    beBytesToNat ((List.range n).map fun i => t / 2 ^ (8 * (n - 1 - i)) % 256)
      = t % 2 ^ (8 * n) := by
  induction n with
  | zero => intro t; simp [beBytesToNat, Nat.mod_one]
  | succ n ih =>
    intro t
    rw [List.range_succ, List.map_append]
    unfold beBytesToNat
    rw [List.foldl_append]
    have hmap : ((List.range n).map fun i => t / 2 ^ (8 * (n + 1 - 1 - i)) % 256)
        = (List.range n).map fun i => (t / 256) / 2 ^ (8 * (n - 1 - i)) % 256 := by
      refine List.map_congr_left ?_
      intro i hi
      have hi' : i < n := List.mem_range.mp hi
      have h8 : 8 * (n + 1 - 1 - i) = 8 + 8 * (n - 1 - i) := by omega
      rw [h8, pow_add, Nat.div_div_eq_div_mul]
      norm_num
    rw [hmap]
    have hih := ih (t / 256)
    unfold beBytesToNat at hih
    rw [hih]
    simp only [List.map_cons, List.map_nil, List.foldl_cons, List.foldl_nil]
    have h1 : 8 * (n + 1 - 1 - n) = 0 := by omega
    have h2 : (2 : Nat) ^ (8 * (n + 1)) = 256 * 2 ^ (8 * n) := by
      have h3 : 8 * (n + 1) = 8 + 8 * n := by omega
      rw [h3, pow_add]; norm_num
    rw [h1, h2, Nat.mod_mul]
    simp [Nat.mul_comm]
    omega

theorem leDigits_foldr (n : Nat) : ∀ t : Nat,
    (((List.range n).map fun i => t / 2 ^ (8 * i) % 256).foldr
        (fun b acc => b + 256 * acc) 0) = t % 2 ^ (8 * n) := by
  induction n with
  | zero => intro t; simp [Nat.mod_one]
  | succ n ih =>
    intro t
    rw [List.range_succ_eq_map, List.map_cons, List.foldr_cons, List.map_map]
    have hmap : ((List.range n).map ((fun i => t / 2 ^ (8 * i) % 256) ∘ Nat.succ))
        = (List.range n).map fun i => (t / 256) / 2 ^ (8 * i) % 256 := by
      refine List.map_congr_left ?_
      intro i hi
      simp only [Function.comp_apply]
      have h8 : 8 * Nat.succ i = 8 + 8 * i := by omega
      rw [h8, pow_add, Nat.div_div_eq_div_mul]
      norm_num
    rw [hmap, ih (t / 256)]
    have h2 : (2 : Nat) ^ (8 * (n + 1)) = 256 * 2 ^ (8 * n) := by
      have h3 : 8 * (n + 1) = 8 + 8 * n := by omega
      rw [h3, pow_add]; norm_num
    rw [h2, Nat.mod_mul]
    omega

/-- `u256_to_be_bytes` is a genuine big-endian serialization: reading its
output most-significant-byte-first recovers the target modulo `2^256`. -/
theorem u256_to_be_bytes_spec (t : Nat) :
    beBytesToNat (u256_to_be_bytes t) = t % 2 ^ 256 := by
  have := beDigits_foldl 32 t
  simpa [u256_to_be_bytes] using this

/-- `u128_from_le_bytes` is a genuine little-endian decoder: it inverts
the little-endian serialization of any `u128` value modulo `2^128`. -/
theorem u128_le_round_trip (n : Nat) :
    u128_from_le_bytes (u128_to_le_bytes n) = n % 2 ^ 128 := by
  have := leDigits_foldr 16 n
  simpa [u128_from_le_bytes, u128_to_le_bytes] using this

/-- Characterization of `solve` when `arch` selects a valid entry point
`f` (the dispatched native function). -/
theorem solve_spec (c0 c1 c2 f : ComputeFn) (sf : Bool) (s : EaglesongCpu)
    (ph : Byte32) (tg : Nat)
    (hf : (s.arch = 0 ∧ f = c0) ∨ (s.arch = 1 ∧ f = c1) ∨ (s.arch = 2 ∧ f = c2)) :
    solve c0 c1 c2 sf s ph tg =
      (if u128_from_le_bytes (f ph (u256_to_be_bytes tg) (List.replicate 16 0)).1 ≠ 0 then
        some { state := { s with seal_candidates_found := s.seal_candidates_found + 1 }
               sent := [(ph, u128_from_le_bytes (f ph (u256_to_be_bytes tg) (List.replicate 16 0)).1)]
               ns := (f ph (u256_to_be_bytes tg) (List.replicate 16 0)).2
               call := ⟨s.arch, ph, u256_to_be_bytes tg, List.replicate 16 0⟩
               send_error_logged := sf }
      else
        some { state := s
               sent := []
               ns := (f ph (u256_to_be_bytes tg) (List.replicate 16 0)).2
               call := ⟨s.arch, ph, u256_to_be_bytes tg, List.replicate 16 0⟩
               send_error_logged := false }) := by
  obtain ⟨ha, rfl⟩ | ⟨ha, rfl⟩ | ⟨ha, rfl⟩ := hf <;>
  · cases hp : f ph (u256_to_be_bytes tg) (List.replicate 16 0) with
    | mk buf ns => simp only [solve, ha, hp]

/-- An `arch` outside `{0, 1, 2}` reaches the `unreachable!` arm of the
dispatch: `solve` panics. -/
theorem solve_arch_invalid (c0 c1 c2 : ComputeFn) (sf : Bool) (s : EaglesongCpu)
    (ph : Byte32) (tg : Nat)
    (h : ¬(s.arch = 0 ∨ s.arch = 1 ∨ s.arch = 2)) :
    solve c0 c1 c2 sf s ph tg = none := by
  push_neg at h
  obtain ⟨h0, h1, h2⟩ := h
  obtain ⟨k, hk⟩ : ∃ k, s.arch = k + 3 := ⟨s.arch - 3, by omega⟩
  unfold solve
  rw [hk]
  rfl

/-! ## Claims -/

/-- C4: in every tick in which the worker holds no WorkItem after the
message poll (`pow_info = none`), the compute primitive is not invoked
even when the running flag is true, no report is emitted, and no
report-window accounting happens (the local counter stays zero and the
window start is not touched), whatever the elapsed time. -/
theorem c4_no_work_no_solve (c0 c1 c2 : ComputeFn) (sf : Bool)
    (recv : Except TryRecvError WorkerMessage) (e : Nat) (s : EaglesongCpu)
    (h1 : (poll_worker_message s recv).start = true)
    (h2 : (poll_worker_message s recv).pow_info = none) :
    run c0 c1 c2 sf recv e s =
      some { state := poll_worker_message s recv
             sent := []
             report := none
             slept_millis := none
             call := none
             final_counter := 0
             window_restarted := false
             send_error_logged := false } := by
  unfold run
  simp [h1, h2]

/-- Witness for C4: a concrete running worker holding no work performs no
compute call in its tick even with a large elapsed time. -/
theorem c4_no_work_no_solve_witness :
    run (constFn (List.replicate 16 0) 3) (constFn (List.replicate 16 0) 3)
        (constFn (List.replicate 16 0) 3) false (.error .empty) 999999999
        { start := true, pow_info := none, seal_candidates_found := 2, arch := 1 } =
      some { state := { start := true, pow_info := none,
                        seal_candidates_found := 2, arch := 1 }
             sent := []
             report := none
             slept_millis := none
             call := none
             final_counter := 0
             window_restarted := false
             send_error_logged := false } :=
  c4_no_work_no_solve _ _ _ _ _ _ _ rfl rfl

/-- C7: each tick polls the control channel exactly once and applies at
most that one message: the tick from any `try_recv` result equals a
message-free tick started from the polled state; and a poll finding the
channel empty and one finding it disconnected leave the state untouched
and yield identical ticks, with no error surfaced. -/
theorem c7_empty_eq_disconnected (c0 c1 c2 : ComputeFn) (sf : Bool)
    (e : Nat) (s : EaglesongCpu) :
    poll_worker_message s (.error .empty) = s ∧
    poll_worker_message s (.error .disconnected) = s ∧
    run c0 c1 c2 sf (.error .empty) e s =
      run c0 c1 c2 sf (.error .disconnected) e s ∧
    ∀ recv, run c0 c1 c2 sf recv e s =
      run c0 c1 c2 sf (.error .empty) e (poll_worker_message s recv) :=
  ⟨rfl, rfl, rfl, fun _ => rfl⟩

/-- C8: every tick executed while the worker is stopped after the message
poll makes no compute call, zeroes the local report accumulator, restarts
the window start, and sleeps the fixed 100 ms interval. -/
theorem c8_stopped_tick (c0 c1 c2 : ComputeFn) (sf : Bool)
    (recv : Except TryRecvError WorkerMessage) (e : Nat) (s : EaglesongCpu)
    (h : (poll_worker_message s recv).start = false) :
    run c0 c1 c2 sf recv e s =
      some { state := poll_worker_message s recv
             sent := []
             report := none
             slept_millis := some 100
             call := none
             final_counter := 0
             window_restarted := true
             send_error_logged := false } := by
  unfold run
  simp [h]

/-- Witness for C8: a concrete worker holding work receives `Stop` and
runs one tick: no solve happens and the tick sleeps 100 ms. -/
theorem c8_stopped_tick_witness :
    run (constFn (List.replicate 16 1) 9) (constFn (List.replicate 16 1) 9)
        (constFn (List.replicate 16 1) 9) false (.ok .Stop) 400000000
        { start := true, pow_info := some (List.replicate 32 2, 77),
          seal_candidates_found := 0, arch := 0 } =
      some { state := { start := false, pow_info := some (List.replicate 32 2, 77),
                        seal_candidates_found := 0, arch := 0 }
             sent := []
             report := none
             slept_millis := some 100
             call := none
             final_counter := 0
             window_restarted := true
             send_error_logged := false } :=
  c8_stopped_tick _ _ _ _ _ _ _ rfl

/-- C6: a `NewWork(item)` message replaces the held WorkItem
unconditionally and leaves the running flag unchanged, in every state;
and when delivered while stopped it is stored immediately but the tick
performs no solve (the worker sleeps as usual). -/
theorem c6_newwork_unconditional (s : EaglesongCpu) (item : Byte32 × Nat) :
    poll_worker_message s (.ok (.NewWork item)) = { s with pow_info := some item } ∧
    (s.start = false → ∀ (c0 c1 c2 : ComputeFn) (sf : Bool) (e : Nat),
      run c0 c1 c2 sf (.ok (.NewWork item)) e s =
        some { state := { s with pow_info := some item }
               sent := []
               report := none
               slept_millis := some 100
               call := none
               final_counter := 0
               window_restarted := true
               send_error_logged := false }) := by
  refine ⟨rfl, ?_⟩
  intro h c0 c1 c2 sf e
  unfold run
  simp [poll_worker_message, h]

/-- Witness for C6: a concrete stopped worker receives `NewWork`; the item
is stored at once, no solve occurs, and the running flag stays false. -/
theorem c6_newwork_unconditional_witness :
    poll_worker_message
        { start := false, pow_info := some (List.replicate 32 3, 9),
          seal_candidates_found := 5, arch := 2 }
        (.ok (.NewWork (List.replicate 32 4, 11))) =
      { start := false, pow_info := some (List.replicate 32 4, 11),
        seal_candidates_found := 5, arch := 2 } ∧
    run (constFn (List.replicate 16 1) 9) (constFn (List.replicate 16 1) 9)
        (constFn (List.replicate 16 1) 9) false
        (.ok (.NewWork (List.replicate 32 4, 11))) 0
        { start := false, pow_info := some (List.replicate 32 3, 9),
          seal_candidates_found := 5, arch := 2 } =
      some { state := { start := false, pow_info := some (List.replicate 32 4, 11),
                        seal_candidates_found := 5, arch := 2 }
             sent := []
             report := none
             slept_millis := some 100
             call := none
             final_counter := 0
             window_restarted := true
             send_error_logged := false } :=
  ⟨(c6_newwork_unconditional _ _).1,
   (c6_newwork_unconditional _ _).2 rfl _ _ _ _ _⟩

/-- C5: processing `Stop` and processing `Start` leave the held WorkItem
unchanged, and so does any finite sequence of such messages; after a
subsequent `Start` the worker is running again and still holds whatever
WorkItem was most recently set by `NewWork`. -/
theorem c5_stop_start_preserve_work (s : EaglesongCpu)
    (msgs : List WorkerMessage)
    (h : ∀ m ∈ msgs, m = WorkerMessage.Stop ∨ m = WorkerMessage.Start) :
    (poll_worker_message s (.ok .Stop)).pow_info = s.pow_info ∧
    (poll_worker_message s (.ok .Start)).pow_info = s.pow_info ∧
    (msgs.foldl (fun st m => poll_worker_message st (.ok m)) s).pow_info
      = s.pow_info ∧
    (poll_worker_message
        (msgs.foldl (fun st m => poll_worker_message st (.ok m)) s)
        (.ok .Start)).start = true := by
  refine ⟨rfl, rfl, ?_, rfl⟩
  induction msgs generalizing s with
  | nil => rfl
  | cons m rest ih =>
    have hm := h m (by simp)
    have hr : ∀ m' ∈ rest, m' = WorkerMessage.Stop ∨ m' = WorkerMessage.Start :=
      fun m' hm' => h m' (by simp [hm'])
    rcases hm with hm | hm <;> subst hm <;>
      simpa [List.foldl_cons] using ih (poll_worker_message s (.ok _)) hr

/-- Witness for C5: after a concrete `Stop, Start, Stop` sequence the
WorkItem last set is still held. -/
theorem c5_stop_start_preserve_work_witness :
    ([WorkerMessage.Stop, WorkerMessage.Start, WorkerMessage.Stop].foldl
        (fun st m => poll_worker_message st (.ok m))
        { start := true, pow_info := some (List.replicate 32 6, 13),
          seal_candidates_found := 1, arch := 0 }).pow_info
      = some (List.replicate 32 6, 13) :=
  (c5_stop_start_preserve_work
    { start := true, pow_info := some (List.replicate 32 6, 13),
      seal_candidates_found := 1, arch := 0 }
    [WorkerMessage.Stop, WorkerMessage.Start, WorkerMessage.Stop]
    (by simp)).2.2.1

/-- C1: in every tick that reaches a solve call (running, with work, valid
architecture), if the dispatched compute primitive yields a non-zero
decoded nonce then exactly one seal `(pow_hash, nonce)` send attempt is
recorded and `seal_candidates_found` grows by exactly 1; if it yields a
zero nonce then no send is attempted and the counter is unchanged; and
the resulting state and send attempts are the same whether the channel
send succeeds or fails. -/
theorem c1_nonzero_nonce_one_seal (c0 c1 c2 f : ComputeFn) (sf sf' : Bool)
    (recv : Except TryRecvError WorkerMessage) (e : Nat) (s : EaglesongCpu)
    (ph : Byte32) (tg : Nat)
    (hrun : (poll_worker_message s recv).start = true)
    (hwork : (poll_worker_message s recv).pow_info = some (ph, tg))
    (hf : ((poll_worker_message s recv).arch = 0 ∧ f = c0) ∨
          ((poll_worker_message s recv).arch = 1 ∧ f = c1) ∨
          ((poll_worker_message s recv).arch = 2 ∧ f = c2)) :
    ∃ out, run c0 c1 c2 sf recv e s = some out ∧
      (∃ out', run c0 c1 c2 sf' recv e s = some out' ∧
        out'.state = out.state ∧ out'.sent = out.sent) ∧
      (u128_from_le_bytes (f ph (u256_to_be_bytes tg) (List.replicate 16 0)).1 ≠ 0 →
        out.sent = [(ph, u128_from_le_bytes
            (f ph (u256_to_be_bytes tg) (List.replicate 16 0)).1)] ∧
        out.state.seal_candidates_found
          = (poll_worker_message s recv).seal_candidates_found + 1) ∧
      (u128_from_le_bytes (f ph (u256_to_be_bytes tg) (List.replicate 16 0)).1 = 0 →
        out.sent = [] ∧
        out.state.seal_candidates_found
          = (poll_worker_message s recv).seal_candidates_found) := by
  have hs := solve_spec c0 c1 c2 f sf (poll_worker_message s recv) ph tg hf
  have hs' := solve_spec c0 c1 c2 f sf' (poll_worker_message s recv) ph tg hf
  by_cases hz :
      u128_from_le_bytes (f ph (u256_to_be_bytes tg) (List.replicate 16 0)).1 = 0
  · rw [if_neg (fun hcon => hcon hz)] at hs hs'
    unfold run
    by_cases he : e / 1000000 > STATE_UPDATE_DURATION_MILLIS <;>
      simp [hrun, hwork, hs, hs', hz, he] <;> simpa using hz
  · rw [if_pos hz] at hs hs'
    unfold run
    by_cases he : e / 1000000 > STATE_UPDATE_DURATION_MILLIS <;>
      simp [hrun, hwork, hs, hs', hz, he] <;> simpa using hz

/-- Witness for C1: a concrete running worker whose compute primitive
reports the nonce 2 attempts exactly one seal send and its candidate
counter becomes 1. -/
theorem c1_nonzero_nonce_one_seal_witness :
    ∃ out, run (constFn (2 :: List.replicate 15 0) 4)
        (constFn (2 :: List.replicate 15 0) 4)
        (constFn (2 :: List.replicate 15 0) 4) false (.error .empty) 0
        { start := true, pow_info := some (List.replicate 32 7, 21),
          seal_candidates_found := 0, arch := 0 } = some out ∧
      out.sent = [(List.replicate 32 7, 2)] ∧
      out.state.seal_candidates_found = 1 := by
  obtain ⟨out, h1, _h2, h3, _h4⟩ :=
    c1_nonzero_nonce_one_seal (constFn (2 :: List.replicate 15 0) 4)
      (constFn (2 :: List.replicate 15 0) 4)
      (constFn (2 :: List.replicate 15 0) 4)
      (constFn (2 :: List.replicate 15 0) 4) false true (.error .empty) 0
      { start := true, pow_info := some (List.replicate 32 7, 21),
        seal_candidates_found := 0, arch := 0 }
      (List.replicate 32 7) 21 rfl rfl (Or.inl ⟨rfl, rfl⟩)
  obtain ⟨hsent, hcount⟩ := h3 (by decide)
  exact ⟨out, h1, by simpa using hsent, by simpa using hcount⟩

/-- With a valid `arch`, `solve` never reaches the `unreachable!` arm. -/
theorem solve_arch_valid_isSome (c0 c1 c2 : ComputeFn) (sf : Bool)
    (s : EaglesongCpu) (ph : Byte32) (tg : Nat)
    (h : s.arch = 0 ∨ s.arch = 1 ∨ s.arch = 2) :
    (solve c0 c1 c2 sf s ph tg).isSome = true := by
  rcases h with h | h | h
  · cases hp : c0 ph (u256_to_be_bytes tg) (List.replicate 16 0) with
    | mk buf ns => simp only [solve, h, hp]; split <;> rfl
  · cases hp : c1 ph (u256_to_be_bytes tg) (List.replicate 16 0) with
    | mk buf ns => simp only [solve, h, hp]; split <;> rfl
  · cases hp : c2 ph (u256_to_be_bytes tg) (List.replicate 16 0) with
    | mk buf ns => simp only [solve, h, hp]; split <;> rfl

/-- C9: the constructor accepts any `arch` value without validation; a
tick that reaches a solve attempt (running after the poll, with a
WorkItem held) panics exactly when `arch` is outside `{0, 1, 2}`, and
under the precondition `arch ∈ {0, 1, 2}` the panic branch is
unreachable (the tick always produces an outcome). -/
theorem c9_arch_dispatch (arch : Nat) (c0 c1 c2 : ComputeFn) (sf : Bool)
    (recv : Except TryRecvError WorkerMessage) (e : Nat) (s : EaglesongCpu)
    (ph : Byte32) (tg : Nat)
    (hrun : (poll_worker_message s recv).start = true)
    (hwork : (poll_worker_message s recv).pow_info = some (ph, tg)) :
    EaglesongCpu.new arch =
      { start := true, pow_info := none, seal_candidates_found := 0,
        arch := arch } ∧
    (¬((poll_worker_message s recv).arch = 0 ∨
        (poll_worker_message s recv).arch = 1 ∨
        (poll_worker_message s recv).arch = 2) →
      run c0 c1 c2 sf recv e s = none) ∧
    (((poll_worker_message s recv).arch = 0 ∨
        (poll_worker_message s recv).arch = 1 ∨
        (poll_worker_message s recv).arch = 2) →
      (run c0 c1 c2 sf recv e s).isSome = true) := by
  refine ⟨rfl, ?_, ?_⟩
  · intro h
    have hinv := solve_arch_invalid c0 c1 c2 sf (poll_worker_message s recv)
      ph tg h
    unfold run
    simp [hrun, hwork, hinv]
  · intro h
    have hsome := solve_arch_valid_isSome c0 c1 c2 sf
      (poll_worker_message s recv) ph tg h
    obtain ⟨out, hout⟩ := Option.isSome_iff_exists.mp hsome
    unfold run
    by_cases he : e / 1000000 > STATE_UPDATE_DURATION_MILLIS <;>
      simp [hrun, hwork, hout, he]

/-- Witness for C9: a concrete worker constructed with the invalid
architecture index 7 stores it unvalidated, and its first solving tick
panics; the same tick with architecture 0 completes. -/
theorem c9_arch_dispatch_witness :
    EaglesongCpu.new 7 =
      { start := true, pow_info := none, seal_candidates_found := 0,
        arch := 7 } ∧
    run (constFn (List.replicate 16 0) 4) (constFn (List.replicate 16 0) 4)
        (constFn (List.replicate 16 0) 4) false (.error .empty) 0
        { start := true, pow_info := some (List.replicate 32 8, 3),
          seal_candidates_found := 0, arch := 7 } = none ∧
    (run (constFn (List.replicate 16 0) 4) (constFn (List.replicate 16 0) 4)
        (constFn (List.replicate 16 0) 4) false (.error .empty) 0
        { start := true, pow_info := some (List.replicate 32 8, 3),
          seal_candidates_found := 0, arch := 0 }).isSome = true :=
  ⟨(c9_arch_dispatch 7 (constFn (List.replicate 16 0) 4)
      (constFn (List.replicate 16 0) 4) (constFn (List.replicate 16 0) 4)
      false (.error .empty) 0
      { start := true, pow_info := some (List.replicate 32 8, 3),
        seal_candidates_found := 0, arch := 7 }
      (List.replicate 32 8) 3 rfl rfl).1,
   (c9_arch_dispatch 7 (constFn (List.replicate 16 0) 4)
      (constFn (List.replicate 16 0) 4) (constFn (List.replicate 16 0) 4)
      false (.error .empty) 0
      { start := true, pow_info := some (List.replicate 32 8, 3),
        seal_candidates_found := 0, arch := 7 }
      (List.replicate 32 8) 3 rfl rfl).2.1 (by decide),
   (c9_arch_dispatch 0 (constFn (List.replicate 16 0) 4)
      (constFn (List.replicate 16 0) 4) (constFn (List.replicate 16 0) 4)
      false (.error .empty) 0
      { start := true, pow_info := some (List.replicate 32 8, 3),
        seal_candidates_found := 0, arch := 0 }
      (List.replicate 32 8) 3 rfl rfl).2.2 (by decide)⟩

/-- C10: every solve call passes the dispatched entry point a 16-byte
nonce buffer of zeroes and the target serialized to big-endian bytes
(reading those bytes most-significant-first recovers the target), decodes
the returned buffer as a little-endian 128-bit integer (the decoder
inverts little-endian serialization), and treats the call as "no
solution" — no send attempt, counter untouched — exactly when the decoded
integer is 0. -/
theorem c10_solve_serialization (c0 c1 c2 f : ComputeFn) (sf : Bool)
    (s : EaglesongCpu) (ph : Byte32) (tg : Nat)
    (hf : (s.arch = 0 ∧ f = c0) ∨ (s.arch = 1 ∧ f = c1) ∨
          (s.arch = 2 ∧ f = c2)) :
    ∃ out, solve c0 c1 c2 sf s ph tg = some out ∧
      out.call.nonce_buffer = List.replicate 16 0 ∧
      out.call.input = ph ∧
      out.call.target = u256_to_be_bytes tg ∧
      beBytesToNat (u256_to_be_bytes tg) = tg % 2 ^ 256 ∧
      (∀ n : Nat, u128_from_le_bytes (u128_to_le_bytes n) = n % 2 ^ 128) ∧
      ((out.sent = [] ∧ out.state = s) ↔
        u128_from_le_bytes
          (f ph (u256_to_be_bytes tg) (List.replicate 16 0)).1 = 0) := by
  have hs := solve_spec c0 c1 c2 f sf s ph tg hf
  by_cases hz : u128_from_le_bytes
      (f ph (u256_to_be_bytes tg) (List.replicate 16 0)).1 = 0
  · rw [if_neg (fun hcon => hcon hz)] at hs
    refine ⟨_, hs, rfl, rfl, rfl, u256_to_be_bytes_spec tg,
      u128_le_round_trip, ?_⟩
    simpa using hz
  · rw [if_pos hz] at hs
    refine ⟨_, hs, rfl, rfl, rfl, u256_to_be_bytes_spec tg,
      u128_le_round_trip, ?_⟩
    constructor
    · intro hcon
      exact absurd hcon.1 (by simp)
    · intro h
      exact absurd h hz

/-- Witness for C10: a concrete solve call with architecture 1 records the
zeroed buffer and the big-endian bytes of the target 258, and a returned
all-zero buffer is treated as "no solution". -/
theorem c10_solve_serialization_witness :
    ∃ out, solve (constFn (List.replicate 16 0) 6)
        (constFn (List.replicate 16 0) 6) (constFn (List.replicate 16 0) 6)
        false { start := true, pow_info := some (List.replicate 32 9, 258),
                seal_candidates_found := 3, arch := 1 }
        (List.replicate 32 9) 258 = some out ∧
      out.call.nonce_buffer = List.replicate 16 0 ∧
      out.call.input = List.replicate 32 9 ∧
      out.call.target = u256_to_be_bytes 258 ∧
      beBytesToNat (u256_to_be_bytes 258) = 258 % 2 ^ 256 ∧
      (∀ n : Nat, u128_from_le_bytes (u128_to_le_bytes n) = n % 2 ^ 128) ∧
      ((out.sent = [] ∧ out.state =
          { start := true, pow_info := some (List.replicate 32 9, 258),
            seal_candidates_found := 3, arch := 1 }) ↔
        u128_from_le_bytes ((constFn (List.replicate 16 0) 6)
          (List.replicate 32 9) (u256_to_be_bytes 258)
          (List.replicate 16 0)).1 = 0) :=
  c10_solve_serialization (constFn (List.replicate 16 0) 6)
    (constFn (List.replicate 16 0) 6) (constFn (List.replicate 16 0) 6)
    (constFn (List.replicate 16 0) 6) false
    { start := true, pow_info := some (List.replicate 32 9, 258),
      seal_candidates_found := 3, arch := 1 }
    (List.replicate 32 9) 258 (Or.inr (Or.inl ⟨rfl, rfl⟩))

/-- C2 fails on the code: `state_update_counter` is a local of `run`,
re-initialized to zero at the start of every call, so the throughput
accumulator IS reset between consecutive Running-Solving ticks with no
report. Two consecutive solving ticks each yield 5 work units; the first
tick (100 ms elapsed) emits no report and ends with its local counter at
5, yet the report of the second tick (350 ms elapsed) shows only 5 work
units, not the 5 + 5 the claim requires. -/
theorem c2_accumulator_reset_between_ticks :
    (runTicks (constFn (List.replicate 16 0) 5)
        (constFn (List.replicate 16 0) 5) (constFn (List.replicate 16 0) 5)
        false [(.error .empty, 100000000), (.error .empty, 350000000)]
        { start := true, pow_info := some (List.replicate 32 1, 5),
          seal_candidates_found := 0, arch := 0 }).map
        (fun p => p.1.map fun o => (o.report, o.final_counter)) =
      some [(none, 5), (some ⟨5, 350000000, 0⟩, 0)] ∧
    (5 : Nat) ≠ 5 + 5 := by
  decide

/-- C3 fails on the code: the report window does not span ticks. With a
fixed throughput of 7 work units per call and k = 2 calls spanning
200 ms + 301 ms > 300 ms, the emitted report states 7 work units over
301 ms (the current call only), not the claimed k*W = 14 over the 501 ms
elapsed since the window start. -/
theorem c3_report_ignores_window_history :
    (runTicks (constFn (List.replicate 16 0) 7)
        (constFn (List.replicate 16 0) 7) (constFn (List.replicate 16 0) 7)
        false [(.error .empty, 200000000), (.error .empty, 301000000)]
        { start := true, pow_info := some (List.replicate 32 1, 5),
          seal_candidates_found := 0, arch := 0 }).map
        (fun p => p.1.map fun o => o.report) =
      some [none, some ⟨7, 301000000, 0⟩] ∧
    (7 : Nat) ≠ 2 * 7 ∧ (301000000 : Nat) ≠ 200000000 + 301000000 := by
  decide
